import Mathlib

/-!
Verification of the Stop Resolution Engine of the fuel-agent service.

The definitions below are a shallow embedding of the Python sources:
  - app/tools.py      : token cache, haversine distance, station ranking,
                        amenity detail fetch, last-result buffer
  - app/session_store.py : per-user conversation sessions with a TTL

Python floats that only flow through comparisons and storage are modelled
as rationals; the trigonometric distance computation is modelled over the
real numbers. Network calls are modelled by passing the (optional)
response of the upstream service as an explicit argument; an extra
boolean records whether a request was issued. The Python `list.sort`
(a stable sort by key) is modelled by a stable insertion sort.
-/

/-! ### Stable sort by key, modelling Python `list.sort(key=...)` -/

/-- Insert `x` into `s` before the first element `y` with `lt y x = false`.
Used to model the stable sort: an element inserted later (hence earlier in
the original list) lands before all key-equal elements. -/
def insB {α : Type} (lt : α → α → Bool) (x : α) : List α → List α
  | [] => [x]
  | y :: ys => if lt y x then y :: insB lt x ys else x :: y :: ys

/-- Stable insertion sort with a strict Bool comparison, the behaviour of
`list.sort` in Python (stable sort, elements compared by key with `<`). -/
def pySort {α : Type} (lt : α → α → Bool) : List α → List α
  | [] => []
  | x :: xs => insB lt x (pySort lt xs)

/-! ### Ranked stations and the two sort keys of `search_amenities`
(app/tools.py lines 295-314) -/

/-- The normalized station dictionary produced by `_parse_station_data`.
Only the fields consulted by the ranking and storage logic are kept;
`location`, `financials`, `features`, `maps_url` and `NEXT_STEP` are
carried strings that ranking never reads. `distance_miles` is the float
of the dictionary, modelled as a rational. -/
structure RankedStation where
  name : String
  location_id : Int
  location_cd : Option String
  is_priority : Bool
  distance_miles : Rat
  deriving DecidableEq

/-- The AMENITY_PRIORITY sort key `(not x["is_priority"], x["distance_miles"])`. -/
def prioKey (s : RankedStation) : Bool × Rat := (!s.is_priority, s.distance_miles)

/-- Strict lexicographic comparison of `(Bool, Rat)` keys, the Python `<`
on the key tuples (with `False < True` on booleans). -/
def lexLtB (a b : Bool × Rat) : Bool := (!a.1 && b.1) || (a.1 == b.1 && decide (a.2 < b.2))

/-- Comparison used by `results.sort(key=lambda x: (not x["is_priority"], x["distance_miles"]))`. -/
def priorityLt (s t : RankedStation) : Bool := lexLtB (prioKey s) (prioKey t)

/-- Comparison used by `results.sort(key=lambda x: x["distance_miles"])`. -/
def nearestLt (s t : RankedStation) : Bool := decide (s.distance_miles < t.distance_miles)

/-- The sorting step of `search_amenities` (app/tools.py lines 300-305). -/
def searchSort (amenities_required : Bool) (results : List RankedStation) : List RankedStation :=
  if amenities_required then pySort priorityLt results else pySort nearestLt results

/-! ### Sessions (app/session_store.py) and the module-level result buffer -/

/-- One conversation session dictionary of `session_store.SESSIONS`. -/
structure Session where
  last_city : Option String
  last_coordinates : Option (Rat × Rat)
  last_stations : Option (List RankedStation)
  updated_at : Rat
  deriving DecidableEq

/-- `SESSION_TTL = 30 * 60` seconds. -/
def SESSION_TTL : Rat := 30 * 60

/-- Lookup in the `SESSIONS` dict, modelled as an association list. -/
def lookupS (k : String) : List (String × Session) → Option Session
  | [] => none
  | (k', v) :: t => if k = k' then some v else lookupS k t

/-- Update (or add) one key of the `SESSIONS` dict. -/
def insertS (k : String) (v : Session) : List (String × Session) → List (String × Session)
  | [] => [(k, v)]
  | (k', v') :: t => if k = k' then (k, v) :: t else (k', v') :: insertS k v t

/-- `session_store.get_session` (app/session_store.py lines 10-37): lazily
creates an empty session, clears and resets a session idle for more than
`SESSION_TTL`, and stamps `updated_at = now` on every access. -/
def get_session (now : Rat) (uid : String) (ss : List (String × Session)) :
    Session × List (String × Session) :=
  match lookupS uid ss with
  | none =>
    let s : Session := ⟨none, none, none, now⟩
    (s, insertS uid s ss)
  | some s =>
    let s1 := if SESSION_TTL < now - s.updated_at then (⟨none, none, none, now⟩ : Session) else s
    let s2 := { s1 with updated_at := now }
    (s2, insertS uid s2 ss)

/-- The process-wide mutable state touched by a search: the module-level
buffer `tools._last_call_results` and the per-user `session_store.SESSIONS`. -/
structure EngineState where
  last_call_results : Option (List RankedStation)
  sessions : List (String × Session)
  deriving DecidableEq

/-- `search_amenities` from the point where the candidates have been
normalized by `_parse_station_data` (app/tools.py lines 295-314): sort by
the mode key, truncate to the top 1, store the truncated list in the
module-level buffer, return it. Nothing is written to `SESSIONS`. -/
def search_amenities (amenities_required : Bool) (results : List RankedStation)
    (st : EngineState) : List RankedStation × EngineState :=
  let sorted := searchSort amenities_required results
  let final := sorted.take 1
  (final, { st with last_call_results := some final })

/-! ### OAuth token management (app/tools.py lines 31-114) -/

/-- The module-level token cache `_access_token`, `_token_type`,
`_token_expires_at`. -/
structure TokenState where
  access_token : Option String
  token_type : Option String
  expires_at : Option Rat
  deriving DecidableEq

/-- The cache before any token was fetched (all three globals `None`). -/
def initialTokenState : TokenState := ⟨none, none, none⟩

/-- Python truthiness of an optional string: `None` and `""` are falsy. -/
def truthyS : Option String → Bool
  | none => false
  | some s => !s.isEmpty

/-- Python truthiness of an optional float: `None` and `0.0` are falsy. -/
def truthyQ : Option Rat → Bool
  | none => false
  | some q => decide (q ≠ 0)

/-- The configuration consulted by `_fetch_new_token` (app/config.py):
each field is the environment value, `none` when unset. -/
structure TokenConfig where
  token_url : Option String
  client_id : Option String
  client_secret : Option String
  scope : Option String
  grant_type : Option String
  x_api_key : Option String
  deriving DecidableEq

/-- Conjunction of the three configuration guards of `_fetch_new_token`. -/
def configValid (cfg : TokenConfig) : Bool :=
  truthyS cfg.token_url
    && (truthyS cfg.client_id && truthyS cfg.client_secret && truthyS cfg.scope)
    && truthyS cfg.x_api_key

/-- JSON body of a successful (2xx) token-endpoint response. -/
structure TokenResponseBody where
  access_token : Option String
  token_type : Option String
  expires_in : Option Int
  deriving DecidableEq

/-- `_fetch_new_token` (app/tools.py lines 36-94). The `http` argument is
`none` for a transport failure or non-2xx status (`raise_for_status`),
otherwise the parsed JSON body. Result: the `(access_token, token_type,
expires_at)` triple, or `none` when any `ValueError` or HTTP error was
caught (the function prints and returns `(None, None, None)`); the Bool
records whether an HTTP request to the token endpoint was issued. -/
def _fetch_new_token (cfg : TokenConfig) (now : Rat) (http : Option TokenResponseBody) :
    Option (String × String × Rat) × Bool :=
  if !truthyS cfg.token_url then (none, false)
  else if !(truthyS cfg.client_id && truthyS cfg.client_secret && truthyS cfg.scope) then
    (none, false)
  else if !truthyS cfg.x_api_key then (none, false)
  else
    match http with
    | none => (none, true)
    | some body =>
      let tok := body.access_token.getD ""
      if tok.isEmpty then (none, true)
      else (some (tok, body.token_type.getD "Bearer",
                  now + ((body.expires_in.getD 3600 : Int) : Rat) - 60), true)

/-- The cache check on line 104: `_access_token and _token_expires_at and
now < _token_expires_at` (note both globals must be truthy). -/
def cacheValid (now : Rat) (st : TokenState) : Bool :=
  truthyS st.access_token && truthyQ st.expires_at && decide (now < st.expires_at.getD 0)

/-- `get_auth_token` (app/tools.py lines 97-114). Returns the
`(access_token, token_type)` pair handed to callers, the token cache
after the call, and whether a token request was issued. -/
def get_auth_token (cfg : TokenConfig) (now : Rat) (http : Option TokenResponseBody)
    (st : TokenState) : (Option String × Option String) × TokenState × Bool :=
  if cacheValid now st then ((st.access_token, st.token_type), st, false)
  else
    let fr := _fetch_new_token cfg now http
    match fr.1 with
    | none => ((none, none), st, fr.2)
    | some (tok, ty, exp) =>
      let ty2 := if ty.isEmpty then "Bearer" else ty
      ((some tok, some ty2), ⟨some tok, some ty2, some exp⟩, fr.2)

/-- The expiry cached by a successful refresh:
`time.time() + int(expires_in) - 60` with the 60 second safety margin
(line 84); `expires_in` defaults to 3600 (line 78). -/
def freshExpiry (now : Rat) (body : TokenResponseBody) : Rat :=
  now + ((body.expires_in.getD 3600 : Int) : Rat) - 60

/-! ### Real-time amenity details (app/tools.py lines 321-366) -/

/-- A numeric amenity slot of the shaped response: either a count taken
from the upstream payload or the explicit unknown marker `"?"`. -/
inductive AmenityField where
  | val (n : Int)
  | unknown
  deriving DecidableEq

/-- The `data` object of a 2xx `AMENITIES_INFO_API` response, flattened:
each field is the corresponding nested value when present. -/
structure UpstreamDetailData where
  site : Option String
  parking_total_spaces : Option Int
  parking_available_spaces : Option Int
  reserve_it_available_spaces : Option Int
  shower_available_showers : Option Int
  deriving DecidableEq

/-- The empty dict `{}` substituted by `resp.json().get("data") or {}`. -/
def emptyDetailData : UpstreamDetailData := ⟨none, none, none, none, none⟩

/-- The dictionary built on lines 348-363. -/
structure ShapedDetail where
  location_id : Int
  food_options : String
  parking_total : AmenityField
  parking_available : AmenityField
  parking_reserved_available : AmenityField
  showers_available : AmenityField
  deriving DecidableEq

/-- Outcome of `get_amenities_details`. -/
inductive DetailsResponse where
  | missingCode
  | offline
  | ok (d : ShapedDetail)
  deriving DecidableEq

/-- A call to `get_amenities_details`: the `locationId` query value sent
to the detail API (`none` when no request was issued) and the returned
value. -/
structure DetailsCall where
  sentKey : Option String
  response : DetailsResponse
  deriving DecidableEq

/-- `get_amenities_details` (app/tools.py lines 321-366). `http` is
`none` for non-200 status or a transport error, otherwise the optional
`data` field of the JSON body. -/
def get_amenities_details (location_id : Int) (location_cd : Option String)
    (http : Option (Option UpstreamDetailData)) : DetailsCall :=
  match location_cd with
  | none => ⟨none, .missingCode⟩
  | some s =>
    if s.isEmpty || s.data.all Char.isWhitespace then ⟨none, .missingCode⟩
    else
      let val_to_send := if s.length > 3 then s.drop 1 else s
      match http with
      | none => ⟨some val_to_send, .offline⟩
      | some data? =>
        let data := data?.getD emptyDetailData
        ⟨some val_to_send, .ok
          { location_id := location_id
            food_options := data.site.getD "No food info listed."
            parking_total := (data.parking_total_spaces.map .val).getD .unknown
            parking_available := (data.parking_available_spaces.map .val).getD .unknown
            parking_reserved_available := (data.reserve_it_available_spaces.map .val).getD (.val 0)
            showers_available := (data.shower_available_showers.map .val).getD .unknown }⟩

/-! ### Financial strings of `_parse_station_data` (app/tools.py lines 216-221) -/

/-- Model of the f-string `f"${v:.2f}"`: dollar sign, then the value
rendered with two decimal places. Ties at half a cent round up here
whereas IEEE formatting rounds half to even; the claims only evaluate it
away from such ties. -/
def fmtMoney (q : Rat) : String :=
  let c : Int := round (100 * q)
  let sign := if c < 0 then "-" else ""
  let n := c.natAbs
  "$" ++ sign ++ toString (n / 100) ++ "." ++ (if n % 100 < 10 then "0" else "") ++ toString (n % 100)

/-- The `financials` entry of the parsed station:
`driver_price = f"${(item.get('customerPrice') or 0):.2f}"` and
`savings = f"${(item.get('savings') or 0):.2f}"`. A missing/null field
(and the falsy 0.0) is replaced by 0 by `or 0`. -/
def station_financials (customerPrice savings : Option Rat) : String × String :=
  (fmtMoney (customerPrice.getD 0), fmtMoney (savings.getD 0))

/-! ### Haversine distance `_calculate_distance` (app/tools.py lines 121-140),
modelled over the real numbers -/

/-- `math.radians`. -/
noncomputable def radians (x : ℝ) : ℝ := x * Real.pi / 180

/-- `math.atan2 y x` (the two-argument arctangent). -/
noncomputable def atan2 (y x : ℝ) : ℝ :=
  if 0 < x then Real.arctan (y / x)
  else if x < 0 then
    (if 0 ≤ y then Real.arctan (y / x) + Real.pi else Real.arctan (y / x) - Real.pi)
  else
    (if 0 < y then Real.pi / 2 else if y < 0 then -(Real.pi / 2) else 0)

/-- The intermediate value `a` of the haversine formula (lines 129-136):
`sin(dlat/2)**2 + cos(radians lat1) * cos(radians lat2) * sin(dlon/2)**2`. -/
noncomputable def havA (lat1 lon1 lat2 lon2 : ℝ) : ℝ :=
  Real.sin (radians (lat2 - lat1) / 2) ^ 2
    + Real.cos (radians lat1) * Real.cos (radians lat2) * Real.sin (radians (lon2 - lon1) / 2) ^ 2

/-- Python `round(x, 2)`. Ties at the third decimal round up here whereas
Python rounds half to even; the claims never evaluate the function at
such a tie. -/
noncomputable def round2 (x : ℝ) : ℝ := ((round (100 * x) : Int) : ℝ) / 100

/-- `_calculate_distance` (app/tools.py lines 121-140). Any missing
coordinate gives the sentinel 9999.0. When `a` leaves `[0, 1]` the Python
code raises `ValueError` inside `math.sqrt` and the handler returns
9999.0; otherwise the rounded haversine distance with Earth radius
3958.8 miles is returned. -/
noncomputable def _calculate_distance : Option ℝ → Option ℝ → Option ℝ → Option ℝ → ℝ
  | some lat1, some lon1, some lat2, some lon2 =>
    if havA lat1 lon1 lat2 lon2 < 0 ∨ 1 < havA lat1 lon1 lat2 lon2 then 9999
    else round2 (3958.8 * (2 * atan2 (Real.sqrt (havA lat1 lon1 lat2 lon2))
        (Real.sqrt (1 - havA lat1 lon1 lat2 lon2))))
  | _, _, _, _ => 9999

/-! ### Follow-up classification (ConversationMemory) -/

/-- Whether `pre` is a leading segment of `l`. -/
def seqStarts : List Char → List Char → Bool
  | [], _ => true
  | _ :: _, [] => false
  | a :: as, b :: bs => a == b && seqStarts as bs

/-- Whether `needle` occurs contiguously inside `hay`. -/
def seqInside (needle : List Char) : List Char → Bool
  | [] => needle.isEmpty
  | c :: t => seqStarts needle (c :: t) || seqInside needle t

/-- Whether the string `k` occurs inside the utterance `u`. -/
def strInside (u k : String) : Bool := seqInside k.toList u.toList

/-- Modelled from the spec: the amenity keywords of `classifyFollowUp`
(spec section 4.5); no follow-up classifier exists in src/. -/
def amenityKeywords : List String :=
  ["parking", "park", "shower", "showers", "food", "amenities", "amenity"]

/-- Modelled from the spec: the new-search action keywords of
`classifyFollowUp` (spec section 4.5); no follow-up classifier exists in
src/. -/
def actionKeywords : List String :=
  ["find", "search", "look", "get", "show", "where", "which", "locate"]

/-- Modelled from the spec: `classifyFollowUp(utterance) -> bool` returns
true only if the utterance contains an amenity keyword and does not
contain a new-search action keyword (spec section 4.5); the classifier is
not present in src/. -/
def classifyFollowUp (u : String) : Bool :=
  amenityKeywords.any (strInside u) && !(actionKeywords.any (strInside u))

/-! ### Helper lemmas about the stable sort -/

theorem perm_insB {α : Type} (lt : α → α → Bool) (x : α) :
    ∀ s : List α, (insB lt x s).Perm (x :: s) := by
  intro s
  induction s with
  | nil => simp [insB]
  | cons y ys ih =>
    by_cases h : lt y x = true
    · simpa [insB, h] using (ih.cons y).trans (List.Perm.swap x y ys)
    · simp [insB, h]

theorem mem_insB {α : Type} (lt : α → α → Bool) (x z : α) (s : List α) :
    z ∈ insB lt x s ↔ z = x ∨ z ∈ s := by
  rw [(perm_insB lt x s).mem_iff]
  simp

theorem pySort_perm {α : Type} (lt : α → α → Bool) :
    ∀ l : List α, (pySort lt l).Perm l := by
  intro l
  induction l with
  | nil => simp [pySort]
  | cons x xs ih => exact (perm_insB lt x (pySort lt xs)).trans (ih.cons x)

theorem pairwise_insB {α : Type} (lt : α → α → Bool)
    (hA : ∀ a b, lt a b = true → lt b a = false)
    (hT : ∀ a b c, lt b a = false → lt c b = false → lt c a = false)
    (x : α) : ∀ s : List α, s.Pairwise (fun a b => lt b a = false) →
      (insB lt x s).Pairwise (fun a b => lt b a = false) := by
  intro s
  induction s with
  | nil => intro _; simp [insB]
  | cons y ys ih =>
    intro hp
    rw [List.pairwise_cons] at hp
    obtain ⟨hy, hys⟩ := hp
    simp only [insB]
    by_cases h : lt y x = true
    · rw [if_pos h, List.pairwise_cons]
      refine ⟨?_, ih hys⟩
      intro z hz
      rcases (mem_insB lt x z ys).mp hz with rfl | hzys
      · exact hA y z h
      · exact hy z hzys
    · rw [if_neg h, List.pairwise_cons]
      refine ⟨?_, List.pairwise_cons.mpr ⟨hy, hys⟩⟩
      intro z hz
      rcases List.mem_cons.mp hz with rfl | hzys
      · exact Bool.eq_false_iff.mpr h
      · exact hT x y z (Bool.eq_false_iff.mpr h) (hy z hzys)

theorem pySort_sorted {α : Type} (lt : α → α → Bool)
    (hA : ∀ a b, lt a b = true → lt b a = false)
    (hT : ∀ a b c, lt b a = false → lt c b = false → lt c a = false) :
    ∀ l : List α, (pySort lt l).Pairwise (fun a b => lt b a = false) := by
  intro l
  induction l with
  | nil => simp [pySort]
  | cons x xs ih => exact pairwise_insB lt hA hT x (pySort lt xs) ih

theorem filter_insB_mem {α κ : Type} [DecidableEq κ] (lt : α → α → Bool) (k : α → κ)
    (hk : ∀ a b, k a = k b → lt a b = false) (k0 : κ) (x : α) (hx : k x = k0) :
    ∀ s : List α, (insB lt x s).filter (fun a => decide (k a = k0))
      = x :: s.filter (fun a => decide (k a = k0)) := by
  intro s
  induction s with
  | nil => simp [insB, hx]
  | cons y ys ih =>
    simp only [insB]
    by_cases h : lt y x = true
    · have hky : ¬ (k y = k0) := by
        intro hky
        have hfalse : lt y x = false := hk y x (hky.trans hx.symm)
        rw [h] at hfalse
        exact Bool.true_eq_false.mp hfalse
      rw [if_pos h, List.filter_cons, List.filter_cons]
      simp [hky, ih]
    · rw [if_neg h, List.filter_cons, List.filter_cons]
      simp [hx]

theorem filter_insB_notmem {α κ : Type} [DecidableEq κ] (lt : α → α → Bool) (k : α → κ)
    (k0 : κ) (x : α) (hx : ¬ (k x = k0)) :
    ∀ s : List α, (insB lt x s).filter (fun a => decide (k a = k0))
      = s.filter (fun a => decide (k a = k0)) := by
  intro s
  induction s with
  | nil => simp [insB, hx]
  | cons y ys ih =>
    simp only [insB]
    by_cases h : lt y x = true
    · rw [if_pos h, List.filter_cons, List.filter_cons]
      by_cases hky : k y = k0 <;> simp [hky, ih]
    · rw [if_neg h, List.filter_cons, List.filter_cons]
      simp [hx]

theorem pySort_stable {α κ : Type} [DecidableEq κ] (lt : α → α → Bool) (k : α → κ)
    (hk : ∀ a b, k a = k b → lt a b = false) (k0 : κ) :
    ∀ l : List α, (pySort lt l).filter (fun a => decide (k a = k0))
      = l.filter (fun a => decide (k a = k0)) := by
  intro l
  induction l with
  | nil => simp [pySort]
  | cons x xs ih =>
    by_cases hx : k x = k0
    · rw [pySort, filter_insB_mem lt k hk k0 x hx, ih, List.filter_cons]
      simp [hx]
    · rw [pySort, filter_insB_notmem lt k k0 x hx, ih, List.filter_cons]
      simp [hx]

/-! ### Properties of the two comparison keys -/

theorem lexLtB_asym (a b : Bool × Rat) : lexLtB a b = true → lexLtB b a = false := by
  rcases a with ⟨a1, a2⟩
  rcases b with ⟨b1, b2⟩
  cases a1 <;> cases b1 <;> simp [lexLtB] <;> exact fun h => le_of_lt h

theorem lexLtB_letrans (a b c : Bool × Rat) :
    lexLtB b a = false → lexLtB c b = false → lexLtB c a = false := by
  rcases a with ⟨a1, a2⟩
  rcases b with ⟨b1, b2⟩
  rcases c with ⟨c1, c2⟩
  cases a1 <;> cases b1 <;> cases c1 <;> simp [lexLtB] <;> intros <;> linarith

theorem lexLtB_self (p : Bool × Rat) : lexLtB p p = false := by
  rcases p with ⟨p1, p2⟩
  cases p1 <;> simp [lexLtB]

theorem priorityLt_asym (s t : RankedStation) :
    priorityLt s t = true → priorityLt t s = false :=
  lexLtB_asym (prioKey s) (prioKey t)

theorem priorityLt_letrans (s t u : RankedStation) :
    priorityLt t s = false → priorityLt u t = false → priorityLt u s = false :=
  lexLtB_letrans (prioKey s) (prioKey t) (prioKey u)

theorem priorityLt_keyEq (s t : RankedStation) :
    prioKey s = prioKey t → priorityLt s t = false := by
  intro h
  unfold priorityLt
  rw [h]
  exact lexLtB_self (prioKey t)

theorem nearestLt_asym (s t : RankedStation) :
    nearestLt s t = true → nearestLt t s = false := by
  simp only [nearestLt, decide_eq_true_eq, decide_eq_false_iff_not]
  intros
  linarith

theorem nearestLt_letrans (s t u : RankedStation) :
    nearestLt t s = false → nearestLt u t = false → nearestLt u s = false := by
  simp only [nearestLt, decide_eq_false_iff_not]
  intros
  linarith

theorem nearestLt_keyEq (s t : RankedStation) :
    s.distance_miles = t.distance_miles → nearestLt s t = false := by
  simp only [nearestLt, decide_eq_false_iff_not]
  intros
  linarith

/-! ### Claim theorems -/

/-- Claim C1: every successful search orders its candidates with the
stable sort of Python: in AMENITY_PRIORITY mode ascending by the key
(not hasRealtimeCapability, distanceMiles), in NEAREST mode ascending by
distanceMiles; candidates with identical sort keys keep their upstream
order; the value returned (and stored) is the head of the fully sorted
candidate list; and on capability flags [false, true, false] with
distances [1, 10, 2] the two modes produce [true/10, false/1, false/2]
and [false/1, false/2, true/10]. -/
theorem C1_search_ordering :
    (∀ l : List RankedStation,
        (searchSort true l).Pairwise (fun a b => priorityLt b a = false))
    ∧ (∀ l : List RankedStation,
        (searchSort false l).Pairwise (fun a b => nearestLt b a = false))
    ∧ (∀ l : List RankedStation, (searchSort true l).Perm l)
    ∧ (∀ l : List RankedStation, (searchSort false l).Perm l)
    ∧ (∀ (l : List RankedStation) (p : Bool × Rat),
        (searchSort true l).filter (fun s => decide (prioKey s = p))
          = l.filter (fun s => decide (prioKey s = p)))
    ∧ (∀ (l : List RankedStation) (d : Rat),
        (searchSort false l).filter (fun s => decide (s.distance_miles = d))
          = l.filter (fun s => decide (s.distance_miles = d)))
    ∧ (∀ (ar : Bool) (l : List RankedStation) (st : EngineState),
        (search_amenities ar l st).1 = (searchSort ar l).take 1)
    ∧ searchSort true
        [⟨"A", 1, none, false, 1⟩, ⟨"B", 2, some "X123", true, 10⟩, ⟨"C", 3, none, false, 2⟩]
        = [⟨"B", 2, some "X123", true, 10⟩, ⟨"A", 1, none, false, 1⟩, ⟨"C", 3, none, false, 2⟩]
    ∧ searchSort false
        [⟨"A", 1, none, false, 1⟩, ⟨"B", 2, some "X123", true, 10⟩, ⟨"C", 3, none, false, 2⟩]
        = [⟨"A", 1, none, false, 1⟩, ⟨"C", 3, none, false, 2⟩, ⟨"B", 2, some "X123", true, 10⟩] := by
  refine ⟨?_, ?_, ?_, ?_, ?_, ?_, ?_, ?_, ?_⟩
  · intro l
    simpa [searchSort] using pySort_sorted priorityLt priorityLt_asym priorityLt_letrans l
  · intro l
    simpa [searchSort] using pySort_sorted nearestLt nearestLt_asym nearestLt_letrans l
  · intro l
    simpa [searchSort] using pySort_perm priorityLt l
  · intro l
    simpa [searchSort] using pySort_perm nearestLt l
  · intro l p
    simpa [searchSort] using pySort_stable priorityLt prioKey priorityLt_keyEq p l
  · intro l d
    simpa [searchSort] using
      pySort_stable nearestLt (fun s => s.distance_miles) nearestLt_keyEq d l
  · intro ar l st
    rfl
  · decide
  · decide

/-- Claim C5 countermodel: a successful search with two ranked candidates
and an existing session for the requesting user stores only the truncated
top-1 list in the module-level buffer — not the full ranked list — and
writes nothing into the per-user session store. -/
theorem C5_storage_counterexample :
    (search_amenities false
        [⟨"A", 1, none, false, 1⟩, ⟨"C", 3, none, false, 2⟩]
        ⟨none, [("alice", ⟨none, none, none, 0⟩)]⟩).2.last_call_results
      = some [⟨"A", 1, none, false, 1⟩]
    ∧ searchSort false [⟨"A", 1, none, false, 1⟩, ⟨"C", 3, none, false, 2⟩]
        = [⟨"A", 1, none, false, 1⟩, ⟨"C", 3, none, false, 2⟩]
    ∧ some [(⟨"A", 1, none, false, 1⟩ : RankedStation)]
        ≠ some [⟨"A", 1, none, false, 1⟩, ⟨"C", 3, none, false, 2⟩]
    ∧ (search_amenities false
        [⟨"A", 1, none, false, 1⟩, ⟨"C", 3, none, false, 2⟩]
        ⟨none, [("alice", ⟨none, none, none, 0⟩)]⟩).2.sessions
      = [("alice", ⟨none, none, none, 0⟩)] := by
  refine ⟨by decide, by decide, by decide, by decide⟩

/-- Claim C5 (amended): after every successful search the truncated
top-1 list — which is exactly the returned value — is written into the
single module-level buffer `_last_call_results` shared by all users,
overwriting its previous content; nothing is written into the per-user
session store. -/
theorem C5_storage_amended :
    ∀ (ar : Bool) (results : List RankedStation) (st : EngineState),
      (search_amenities ar results st).2.last_call_results
          = some ((search_amenities ar results st).1)
      ∧ (search_amenities ar results st).1 = (searchSort ar results).take 1
      ∧ (search_amenities ar results st).2.sessions = st.sessions := by
  intro ar results st
  exact ⟨rfl, rfl, rfl⟩

/-- Claim C6: `get_session` lazily creates an empty session on first
access; an access whose idle time exceeds the 30-minute TTL returns the
session with stations, city and coordinates cleared and the timestamp
reset; a non-expired access keeps the stored data; every access stamps
`updated_at = now`; and the returned session is what the store then
holds for that user. -/
theorem C6_get_session_spec (now : Rat) (uid : String) (ss : List (String × Session)) :
    (lookupS uid ss = none →
        get_session now uid ss
          = (⟨none, none, none, now⟩, insertS uid ⟨none, none, none, now⟩ ss))
    ∧ (∀ s, lookupS uid ss = some s → SESSION_TTL < now - s.updated_at →
        (get_session now uid ss).1 = ⟨none, none, none, now⟩)
    ∧ (∀ s, lookupS uid ss = some s → ¬ (SESSION_TTL < now - s.updated_at) →
        (get_session now uid ss).1 = { s with updated_at := now })
    ∧ (get_session now uid ss).1.updated_at = now
    ∧ lookupS uid (get_session now uid ss).2 = some (get_session now uid ss).1 := by
  have hins : ∀ (v : Session) (l : List (String × Session)),
      lookupS uid (insertS uid v l) = some v := by
    intro v l
    induction l with
    | nil => simp [insertS, lookupS]
    | cons p t ih =>
      rcases p with ⟨k', v'⟩
      by_cases hk : uid = k'
      · simp [insertS, lookupS, hk]
      · simp [insertS, lookupS, hk, ih]
  refine ⟨?_, ?_, ?_, ?_, ?_⟩
  · intro h
    simp [get_session, h]
  · intro s h hexp
    simp [get_session, h, if_pos hexp]
  · intro s h hexp
    simp [get_session, h, if_neg hexp]
  · rcases h : lookupS uid ss with _ | s
    · simp [get_session, h]
    · by_cases hexp : SESSION_TTL < now - s.updated_at <;>
        simp [get_session, h, hexp]
  · rcases h : lookupS uid ss with _ | s
    · simp [get_session, h, hins]
    · by_cases hexp : SESSION_TTL < now - s.updated_at <;>
        simp [get_session, h, hexp, hins]

/-- Concrete instantiation of the C6 theorem: a first access at time 5
creates the empty session, and an access at time 2000 to a session last
touched at time 0 (idle 2000 s > 1800 s) returns it cleared with the
timestamp reset. -/
theorem C6_get_session_witness :
    get_session 5 "u" [] = (⟨none, none, none, 5⟩, [("u", ⟨none, none, none, 5⟩)])
    ∧ (get_session 2000 "u"
        [("u", ⟨some "chicago", some (1, 2), some [⟨"A", 1, none, false, 1⟩], 0⟩)]).1
      = ⟨none, none, none, 2000⟩ := by
  constructor
  · have h := (C6_get_session_spec 5 "u" []).1 (by decide)
    simpa [insertS] using h
  · exact (C6_get_session_spec 2000 "u"
      [("u", ⟨some "chicago", some (1, 2), some [⟨"A", 1, none, false, 1⟩], 0⟩)]).2.1
      ⟨some "chicago", some (1, 2), some [⟨"A", 1, none, false, 1⟩], 0⟩
      (by decide) (by norm_num [SESSION_TTL])

/-- Helper: with valid configuration and a 2xx body carrying a non-empty
access token, `_fetch_new_token` returns the token, the (defaulted)
token type and the expiry `now + expires_in - 60`, and issues exactly one
request. -/
theorem fetch_new_token_success (cfg : TokenConfig) (now : Rat) (body : TokenResponseBody)
    (tok : String) (hc : configValid cfg = true) (hb : body.access_token = some tok)
    (ht : tok.isEmpty = false) :
    _fetch_new_token cfg now (some body)
      = (some (tok, body.token_type.getD "Bearer", freshExpiry now body), true) := by
  simp only [configValid, Bool.and_eq_true] at hc
  obtain ⟨⟨hurl, ⟨hcid, hcs⟩, hsc⟩, hapi⟩ := hc
  simp [_fetch_new_token, hurl, hcid, hcs, hsc, hapi, hb, ht, freshExpiry]

/-- Claim C3: `get_auth_token` returns the cached credential without a
token request whenever the cached token is present and `now` is before
the cached expiry; otherwise it issues exactly one token request and on
success caches the token with expiry `now + expires_in - 60` before
returning it. The last two conjuncts characterise the cache check, so
that a second call within the window hits the first conjunct (zero
requests) and a call at or after the expiry hits the second (a fresh
request with a refreshed expiry). -/
theorem C3_token_caching :
    (∀ cfg now http st, cacheValid now st = true →
        get_auth_token cfg now http st = ((st.access_token, st.token_type), st, false))
    ∧ (∀ cfg now (body : TokenResponseBody) st tok, cacheValid now st = false →
        configValid cfg = true → body.access_token = some tok → tok.isEmpty = false →
        (get_auth_token cfg now (some body) st).1.1 = some tok
        ∧ (get_auth_token cfg now (some body) st).2.1.access_token = some tok
        ∧ (get_auth_token cfg now (some body) st).2.1.expires_at
            = some (freshExpiry now body)
        ∧ (get_auth_token cfg now (some body) st).2.2 = true)
    ∧ (∀ (tok ty : String) (e now : Rat), tok.isEmpty = false → 0 ≤ now → now < e →
        cacheValid now ⟨some tok, some ty, some e⟩ = true)
    ∧ (∀ (tok ty : String) (e now : Rat), e ≤ now →
        cacheValid now ⟨some tok, some ty, some e⟩ = false) := by
  refine ⟨?_, ?_, ?_, ?_⟩
  · intro cfg now http st h
    simp [get_auth_token, h]
  · intro cfg now body st tok hmiss hc hb ht
    rw [show (get_auth_token cfg now (some body) st)
        = ((some tok, some (if (body.token_type.getD "Bearer").isEmpty then "Bearer"
              else body.token_type.getD "Bearer")),
           ⟨some tok, some (if (body.token_type.getD "Bearer").isEmpty then "Bearer"
              else body.token_type.getD "Bearer"), some (freshExpiry now body)⟩, true)
        from by simp [get_auth_token, hmiss,
          fetch_new_token_success cfg now body tok hc hb ht]]
    exact ⟨rfl, rfl, rfl, rfl⟩
  · intro tok ty e now ht hnow hlt
    have hne : e ≠ 0 := by
      intro h0
      rw [h0] at hlt
      linarith
    simp [cacheValid, truthyS, truthyQ, ht, hne, hlt]
  · intro tok ty e now hle
    have hd : decide (now < e) = false := decide_eq_false (not_lt.mpr hle)
    simp [cacheValid, hd]

/-- Concrete instantiation of the C3 theorem: a first call at time 100
with `expires_in = 3600` fetches and caches expiry 3640; a second call at
time 2000 (inside the window) issues no request and returns the cached
pair; at time 4000 (past the expiry 3640) the cache check fails. -/
theorem C3_token_caching_witness :
    ((get_auth_token ⟨some "u", some "i", some "s", some "sc", some "cc", some "k"⟩ 100
        (some ⟨some "tok", some "Bearer", some 3600⟩) initialTokenState).1.1 = some "tok"
      ∧ (get_auth_token ⟨some "u", some "i", some "s", some "sc", some "cc", some "k"⟩ 100
        (some ⟨some "tok", some "Bearer", some 3600⟩) initialTokenState).2.1.expires_at
          = some 3640
      ∧ (get_auth_token ⟨some "u", some "i", some "s", some "sc", some "cc", some "k"⟩ 100
        (some ⟨some "tok", some "Bearer", some 3600⟩) initialTokenState).2.2 = true)
    ∧ get_auth_token ⟨some "u", some "i", some "s", some "sc", some "cc", some "k"⟩ 2000
        none ⟨some "tok", some "Bearer", some 3640⟩
      = ((some "tok", some "Bearer"), ⟨some "tok", some "Bearer", some 3640⟩, false)
    ∧ cacheValid 4000 ⟨some "tok", some "Bearer", some 3640⟩ = false := by
  refine ⟨?_, ?_, ?_⟩
  · have h := C3_token_caching.2.1
      ⟨some "u", some "i", some "s", some "sc", some "cc", some "k"⟩ 100
      ⟨some "tok", some "Bearer", some 3600⟩ initialTokenState "tok"
      (by decide) (by decide) rfl (by decide)
    refine ⟨h.1, ?_, h.2.2.2⟩
    rw [h.2.2.1]
    norm_num [freshExpiry]
  · exact C3_token_caching.1
      ⟨some "u", some "i", some "s", some "sc", some "cc", some "k"⟩ 2000 none
      ⟨some "tok", some "Bearer", some 3640⟩
      (C3_token_caching.2.2.1 "tok" "Bearer" 3640 2000 (by decide) (by norm_num)
        (by norm_num))
  · exact C3_token_caching.2.2.2 "tok" "Bearer" 3640 4000 (by norm_num)

/-- Claim C9: when a refresh is attempted and fails — transport failure
or non-success status, invalid configuration, or a body without a usable
access token — `get_auth_token` reports `(None, None)` and leaves the
previously cached token, scheme and expiry untouched. -/
theorem C9_stale_cache_preserved :
    (∀ cfg now http st, cacheValid now st = false →
        (_fetch_new_token cfg now http).1 = none →
        get_auth_token cfg now http st = ((none, none), st, (_fetch_new_token cfg now http).2))
    ∧ (∀ cfg now, (_fetch_new_token cfg now none).1 = none)
    ∧ (∀ cfg now http, configValid cfg = false → (_fetch_new_token cfg now http).1 = none)
    ∧ (∀ cfg now (body : TokenResponseBody), body.access_token.getD "" = "" →
        (_fetch_new_token cfg now (some body)).1 = none) := by
  refine ⟨?_, ?_, ?_, ?_⟩
  · intro cfg now http st hmiss hfetch
    simp [get_auth_token, hmiss, hfetch]
  · intro cfg now
    unfold _fetch_new_token
    split_ifs <;> rfl
  · intro cfg now http hc
    by_cases h1 : truthyS cfg.token_url = true
    · by_cases h2 : (truthyS cfg.client_id && truthyS cfg.client_secret
          && truthyS cfg.scope) = true
      · by_cases h3 : truthyS cfg.x_api_key = true
        · exfalso
          rw [configValid, h1, h2, h3] at hc
          simp at hc
        · simp only [Bool.not_eq_true] at h3
          simp [_fetch_new_token, h1, h2, h3]
      · simp only [Bool.not_eq_true] at h2
        simp [_fetch_new_token, h1, h2]
    · simp only [Bool.not_eq_true] at h1
      simp [_fetch_new_token, h1]
  · intro cfg now body hb
    unfold _fetch_new_token
    split_ifs <;> simp [hb, show "".isEmpty = true from rfl]

/-- Concrete instantiation of the C9 theorem: at time 200 with a stale
cache (expiry 100), an unset configuration and no reachable endpoint,
the call reports `(None, None)` and the stale cached triple survives. -/
theorem C9_stale_cache_preserved_witness :
    get_auth_token ⟨none, none, none, none, none, none⟩ 200 none
        ⟨some "old", some "Bearer", some 100⟩
      = ((none, none), ⟨some "old", some "Bearer", some 100⟩, false) := by
  have h := C9_stale_cache_preserved.1 ⟨none, none, none, none, none, none⟩ 200 none
    ⟨some "old", some "Bearer", some 100⟩ (by decide)
    (C9_stale_cache_preserved.2.1 ⟨none, none, none, none, none, none⟩ 200)
  simpa [_fetch_new_token, truthyS] using h

/-- Claim C2 (code divergence): with a valid real-time code and a 2xx
upstream response whose `data` carries none of the amenity objects, the
shaped response reports the parking total, parking available and shower
counts as the unknown marker, but reports reserved-parking available as
the number 0 — the integer default on app/tools.py line 355 — which is
not the unknown marker. -/
theorem C2_reserved_default_zero :
    get_amenities_details 1 (some "T123") (some none)
      = ⟨some "123", .ok ⟨1, "No food info listed.",
          .unknown, .unknown, .val 0, .unknown⟩⟩
    ∧ AmenityField.val 0 ≠ AmenityField.unknown := by
  exact ⟨by decide, by decide⟩

/-- Claim C8: for a non-blank real-time code the `locationId` sent to the
detail API is the code with its first character removed when the code is
longer than 3 characters, and the code unchanged otherwise. -/
theorem C8_detail_key_transform (lid : Int) (s : String)
    (http : Option (Option UpstreamDetailData))
    (h1 : s.isEmpty = false) (h2 : s.data.all Char.isWhitespace = false) :
    (get_amenities_details lid (some s) http).sentKey
      = some (if s.length > 3 then s.drop 1 else s) := by
  rcases http with _ | d <;> simp [get_amenities_details, h1, h2]

/-- Concrete instantiation of the C8 theorem: code "T123" (length 4)
is sent as "123", code "AB" (length 2) is sent unchanged. -/
theorem C8_detail_key_transform_witness :
    (get_amenities_details 7 (some "T123") (some (some emptyDetailData))).sentKey = some "123"
    ∧ (get_amenities_details 7 (some "AB") none).sentKey = some "AB" := by
  constructor
  · rw [C8_detail_key_transform 7 "T123" (some (some emptyDetailData)) (by decide) (by decide)]
    decide
  · rw [C8_detail_key_transform 7 "AB" none (by decide) (by decide)]
    decide

/-- Helper: the dollar formatting of the value 0 is "$0.00". -/
theorem fmtMoney_zero : fmtMoney 0 = "$0.00" := by
  simp only [fmtMoney]
  rw [show (100 : Rat) * 0 = 0 by norm_num, round_zero]
  decide

/-- Claim C10: a missing or null `customerPrice` or `savings` renders the
financial strings as the dollar-formatted zero, so at the interface an
absent upstream value is indistinguishable from an actual zero price or
zero savings. -/
theorem C10_missing_price_formats_zero (customerPrice savings : Option Rat) :
    (customerPrice = none → (station_financials customerPrice savings).1 = "$0.00")
    ∧ (savings = none → (station_financials customerPrice savings).2 = "$0.00")
    ∧ (station_financials (some 0) savings).1 = "$0.00"
    ∧ (station_financials customerPrice (some 0)).2 = "$0.00" := by
  refine ⟨?_, ?_, ?_, ?_⟩
  · rintro rfl
    show fmtMoney ((none : Option Rat).getD 0) = "$0.00"
    exact fmtMoney_zero
  · rintro rfl
    show fmtMoney ((none : Option Rat).getD 0) = "$0.00"
    exact fmtMoney_zero
  · show fmtMoney ((some (0 : Rat)).getD 0) = "$0.00"
    exact fmtMoney_zero
  · show fmtMoney ((some (0 : Rat)).getD 0) = "$0.00"
    exact fmtMoney_zero

/-- Concrete instantiation of the C10 theorem: a station with no
`customerPrice` shows "$0.00", and a station with no `savings` shows
"$0.00". -/
theorem C10_missing_price_formats_zero_witness :
    (station_financials none (some 5)).1 = "$0.00"
    ∧ (station_financials (some (5 / 2)) none).2 = "$0.00" :=
  ⟨(C10_missing_price_formats_zero none (some 5)).1 rfl,
   (C10_missing_price_formats_zero (some (5 / 2)) none).2.1 rfl⟩

/-- Claim C4 (spec-modelled): `classifyFollowUp` is true exactly when the
utterance contains an amenity keyword and no new-search action keyword;
in particular "is there parking?" is a follow-up while "find a station
with parking" and "cheapest diesel" are not. -/
theorem C4_classify_follow_up :
    (∀ u : String, classifyFollowUp u = true ↔
        (amenityKeywords.any (strInside u) = true
          ∧ actionKeywords.any (strInside u) = false))
    ∧ classifyFollowUp "is there parking?" = true
    ∧ classifyFollowUp "find a station with parking" = false
    ∧ classifyFollowUp "cheapest diesel" = false := by
  refine ⟨?_, by decide, by decide, by decide⟩
  intro u
  simp [classifyFollowUp, Bool.and_eq_true, Bool.not_eq_true']

/-- Helper: the haversine intermediate value vanishes at equal points. -/
theorem havA_self (lat lon : ℝ) : havA lat lon lat lon = 0 := by
  simp [havA, radians]

/-- Helper: the haversine intermediate value is symmetric in the two
points. -/
theorem havA_comm (lat1 lon1 lat2 lon2 : ℝ) :
    havA lat1 lon1 lat2 lon2 = havA lat2 lon2 lat1 lon1 := by
  unfold havA radians
  rw [show (lat1 - lat2) * Real.pi / 180 / 2 = -((lat2 - lat1) * Real.pi / 180 / 2) by ring,
      show (lon1 - lon2) * Real.pi / 180 / 2 = -((lon2 - lon1) * Real.pi / 180 / 2) by ring,
      Real.sin_neg, Real.sin_neg]
  ring

/-- Helper: `atan2 y x` is non-negative for non-negative `y`. -/
theorem atan2_nonneg (y x : ℝ) (hy : 0 ≤ y) : 0 ≤ atan2 y x := by
  unfold atan2
  by_cases h1 : 0 < x
  · rw [if_pos h1]
    have h := Real.arctan_strictMono.monotone (div_nonneg hy h1.le)
    rw [Real.arctan_zero] at h
    exact h
  · rw [if_neg h1]
    by_cases h2 : x < 0
    · rw [if_pos h2, if_pos hy]
      have h := Real.neg_pi_div_two_lt_arctan (y / x)
      have hpi := Real.pi_pos
      linarith
    · rw [if_neg h2]
      by_cases h4 : 0 < y
      · rw [if_pos h4]
        have hpi := Real.pi_pos
        linarith
      · rw [if_neg h4, if_neg (by linarith : ¬ y < 0)]

/-- Helper: `atan2 0 1 = 0`. -/
theorem atan2_zero_one : atan2 0 1 = 0 := by
  unfold atan2
  rw [if_pos one_pos]
  simp

/-- Helper: Python `round(x, 2)` preserves non-negativity. -/
theorem round2_nonneg (x : ℝ) (hx : 0 ≤ x) : 0 ≤ round2 x := by
  unfold round2
  have h : (0 : Int) ≤ round (100 * x) := by
    rw [round_eq]
    exact Int.le_floor.mpr (by push_cast; linarith)
  have h2 : (0 : ℝ) ≤ ((round (100 * x) : Int) : ℝ) := by exact_mod_cast h
  linarith

/-- Helper: Python `round(0, 2) = 0`. -/
theorem round2_zero : round2 0 = 0 := by
  unfold round2
  norm_num

/-- Claim C7 countermodel. The distance of the north pole to the south
pole is the rounded value of 3958.8 * pi, about 12436.9 miles, which
exceeds the 9999.0 sentinel; consequently the sentinel does not sort
last: in NEAREST mode a sentinel-distance station precedes a station at
such a distance, and in AMENITY_PRIORITY mode a real-time-capable
station with sentinel distance even precedes every non-capable station
however near. -/
theorem C7_distance_counterexample :
    (9999 : ℝ) < _calculate_distance (some 90) (some 0) (some (-90)) (some 0)
    ∧ searchSort false
        [⟨"far", 1, none, false, 12430⟩, ⟨"nogeo", 2, none, false, 9999⟩]
        = [⟨"nogeo", 2, none, false, 9999⟩, ⟨"far", 1, none, false, 12430⟩]
    ∧ searchSort true
        [⟨"near", 3, none, false, 1⟩, ⟨"prionogeo", 4, some "X123", true, 9999⟩]
        = [⟨"prionogeo", 4, some "X123", true, 9999⟩, ⟨"near", 3, none, false, 1⟩] := by
  refine ⟨?_, by decide, by decide⟩
  have hA : havA 90 0 (-90) 0 = 1 := by
    unfold havA radians
    rw [show ((-90 : ℝ) - 90) * Real.pi / 180 / 2 = -(Real.pi / 2) by ring,
        show ((0 : ℝ) - 0) * Real.pi / 180 / 2 = 0 by ring,
        show (90 : ℝ) * Real.pi / 180 = Real.pi / 2 by ring,
        Real.sin_neg, Real.sin_pi_div_two, Real.cos_pi_div_two, Real.sin_zero]
    ring
  rw [show _calculate_distance (some 90) (some 0) (some (-90)) (some 0)
      = round2 (3958.8 * (2 * atan2 (Real.sqrt 1) (Real.sqrt (1 - 1)))) from by
        simp only [_calculate_distance, hA]
        rw [if_neg (by norm_num)]]
  rw [show (1 : ℝ) - 1 = 0 by norm_num, Real.sqrt_one, Real.sqrt_zero]
  have hat : atan2 1 0 = Real.pi / 2 := by
    unfold atan2
    rw [if_neg (lt_irrefl (0 : ℝ)), if_neg (lt_irrefl (0 : ℝ)), if_pos one_pos]
  rw [hat, show (3958.8 : ℝ) * (2 * (Real.pi / 2)) = 3958.8 * Real.pi by ring]
  unfold round2
  have hpi := Real.pi_gt_three
  have hz : (1187000 : ℝ) < 100 * (3958.8 * Real.pi) := by nlinarith
  have hfl := Int.sub_one_lt_floor (100 * (3958.8 * Real.pi) + 1 / 2)
  rw [round_eq]
  rw [lt_div_iff₀ (by norm_num : (0 : ℝ) < 100)]
  have : (999900 : ℝ) < ((⌊100 * (3958.8 * Real.pi) + 1 / 2⌋ : Int) : ℝ) := by
    have hle : 100 * (3958.8 * Real.pi) + 1 / 2 - 1
        < ((⌊100 * (3958.8 * Real.pi) + 1 / 2⌋ : Int) : ℝ) := hfl
    linarith
  linarith

/-- Claim C7 (amended): the distance of a point to itself is 0; the
distance is symmetric; any missing coordinate gives the sentinel 9999.0;
every result is non-negative; and in both ranking modes a station whose
distance is below the sentinel sorts before a sentinel-distance station
of the same capability group — but a computed great-circle distance can
exceed the sentinel (the countermodel above), so the sentinel is not a
universal maximum. -/
theorem C7_distance_amended :
    (∀ lat lon : ℝ, _calculate_distance (some lat) (some lon) (some lat) (some lon) = 0)
    ∧ (∀ a b c d : Option ℝ, _calculate_distance a b c d = _calculate_distance c d a b)
    ∧ (∀ b c d : Option ℝ, _calculate_distance none b c d = 9999)
    ∧ (∀ a c d : Option ℝ, _calculate_distance a none c d = 9999)
    ∧ (∀ a b d : Option ℝ, _calculate_distance a b none d = 9999)
    ∧ (∀ a b c : Option ℝ, _calculate_distance a b c none = 9999)
    ∧ (∀ a b c d : Option ℝ, 0 ≤ _calculate_distance a b c d)
    ∧ (∀ l : List RankedStation, (searchSort false l).Pairwise
        (fun s t => s.distance_miles = 9999 → 9999 ≤ t.distance_miles))
    ∧ (∀ l : List RankedStation, (searchSort true l).Pairwise
        (fun s t => s.is_priority = t.is_priority → s.distance_miles = 9999
          → 9999 ≤ t.distance_miles)) := by
  refine ⟨?_, ?_, ?_, ?_, ?_, ?_, ?_, ?_, ?_⟩
  · intro lat lon
    simp only [_calculate_distance, havA_self]
    rw [if_neg (by norm_num)]
    rw [Real.sqrt_zero, show (1 : ℝ) - 0 = 1 by norm_num, Real.sqrt_one, atan2_zero_one]
    rw [show (3958.8 : ℝ) * (2 * 0) = 0 by ring]
    exact round2_zero
  · intro a b c d
    rcases a with _ | lat1 <;> rcases b with _ | lon1 <;>
      rcases c with _ | lat2 <;> rcases d with _ | lon2 <;> try rfl
    simp only [_calculate_distance]
    conv_lhs => rw [havA_comm]
  · intro b c d
    rfl
  · intro a c d
    rcases a with _ | x <;> rfl
  · intro a b d
    rcases a with _ | x <;> rcases b with _ | y <;> rfl
  · intro a b c
    rcases a with _ | x <;> rcases b with _ | y <;> rcases c with _ | z <;> rfl
  · intro a b c d
    rcases a with _ | lat1 <;> rcases b with _ | lon1 <;>
      rcases c with _ | lat2 <;> rcases d with _ | lon2 <;>
      try (norm_num [_calculate_distance]; done)
    simp only [_calculate_distance]
    split_ifs
    · norm_num
    · exact round2_nonneg _ (mul_nonneg (by norm_num)
        (mul_nonneg (by norm_num) (atan2_nonneg _ _ (Real.sqrt_nonneg _))))
  · intro l
    rw [show searchSort false l = pySort nearestLt l from by simp [searchSort]]
    refine List.Pairwise.imp ?_ (pySort_sorted nearestLt nearestLt_asym nearestLt_letrans l)
    intro a b hab heq
    simp only [nearestLt, decide_eq_false_iff_not, not_lt] at hab
    exact heq ▸ hab
  · intro l
    rw [show searchSort true l = pySort priorityLt l from by simp [searchSort]]
    refine List.Pairwise.imp ?_ (pySort_sorted priorityLt priorityLt_asym priorityLt_letrans l)
    intro a b hab hpr heq
    simp only [priorityLt, lexLtB, prioKey, hpr] at hab
    simp at hab
    exact heq ▸ hab

/-- Concrete instantiation of the amended C7 theorem: the distance of a
point to itself is 0 and a missing latitude gives the sentinel. -/
theorem C7_distance_amended_witness :
    _calculate_distance (some 7) (some 8) (some 7) (some 8) = 0
    ∧ _calculate_distance none (some 1) (some 2) (some 3) = 9999 :=
  ⟨C7_distance_amended.1 7 8, C7_distance_amended.2.2.1 (some 1) (some 2) (some 3)⟩
